import Mathlib

/-!
Verification development for the `cctr` command-line translation tool.

The embedding follows the Python sources:
* `src/cctr/translator.py` — language detection (`LanguageDetector.detect`),
  model-alias and language-name resolution, the prompt builder, the streaming
  response-consumption loop of `Translator._translate_async`, and the
  auto-translate target-selection policy of `Translator.auto_translate`.
* `src/cctr/config.py` — the YAML-backed configuration store (`Config`).

Conventions of the embedding:
* Python strings are Lean `String`s; iteration over a Python string's
  characters is iteration over `String.data`, with `Char.toNat` as `ord`.
* Python dicts keyed by strings are association lists (`List (String × String)`);
  `d[k] = v` is `dictSet`, `d.get(k, dflt)` is `dictGetD`.
* The external agent stream of `claude_agent_sdk` is a list of events: either a
  received message or a transport error raised mid-stream.
* The progress callback is modelled as a state transformer `σ → ProgressUpdate → σ`
  over a caller-chosen state type `σ`: the Python callback returns `None` and acts
  only through its side effects, which the state `σ` stands for.
* Serialization through `yaml.safe_dump`/`yaml.safe_load` is abstracted as the
  identity on the stored dictionary: the persisted file holds the dict itself
  (`FileSystem := Option Dict`, `none` meaning the file does not exist).
-/

namespace Cctr

/-- The three Unicode code-point ranges checked by `LanguageDetector.detect`
(translator.py lines 31-35): Hiragana, Katakana, CJK Unified Ideographs. -/
def japanese_ranges : List (Nat × Nat) :=
  [(0x3040, 0x309F), (0x30A0, 0x30FF), (0x4E00, 0x9FFF)]

/-- Embeds `LanguageDetector.detect` (translator.py lines 21-43): scan the
characters of the text; on the first character whose code point lies in one of
the `japanese_ranges` (bounds inclusive) return `"ja"`; otherwise `"en"`. -/
def detect (text : String) : String :=
  if text.data.any (fun char =>
      japanese_ranges.any (fun r =>
        decide (r.1 ≤ char.toNat) && decide (char.toNat ≤ r.2))) then
    "ja"
  else
    "en"

/-- Association-list lookup: Python `dict.get(k)` returning `None` when absent. -/
def dictFind : List (String × String) → String → Option String
  | [], _ => none
  | kv :: rest, k => if kv.1 == k then some kv.2 else dictFind rest k

/-- Python `dict.get(k, dflt)`. -/
def dictGetD (d : List (String × String)) (k dflt : String) : String :=
  (dictFind d k).getD dflt

/-- Python `d[k] = v`: overwrite the binding in place when the key is present,
append it otherwise. -/
def dictSet : List (String × String) → String → String → List (String × String)
  | [], k, v => [(k, v)]
  | kv :: rest, k, v =>
    if kv.1 == k then (k, v) :: rest else kv :: dictSet rest k v

/-- Embeds `Translator.MODEL_ALIASES` (translator.py lines 50-54). -/
def MODEL_ALIASES : List (String × String) :=
  [("haiku", "claude-3-5-haiku-20241022"),
   ("sonnet", "claude-3-5-sonnet-20241022"),
   ("opus", "claude-opus-4-20250514")]

/-- Embeds `Translator._resolve_model` (translator.py lines 96-98):
`self.MODEL_ALIASES.get(model, model)`. -/
def resolve_model (model : String) : String :=
  dictGetD MODEL_ALIASES model model

/-- Embeds `Translator.LANGUAGE_NAMES` (translator.py lines 57-68). -/
def LANGUAGE_NAMES : List (String × String) :=
  [("en", "English"), ("ja", "Japanese"), ("zh", "Chinese"), ("ko", "Korean"),
   ("es", "Spanish"), ("fr", "French"), ("de", "German"), ("it", "Italian"),
   ("pt", "Portuguese"), ("ru", "Russian")]

/-- Embeds `Translator._get_language_name` (translator.py lines 100-102):
`self.LANGUAGE_NAMES.get(code, code)`. -/
def get_language_name (code : String) : String :=
  dictGetD LANGUAGE_NAMES code code

/-- Characters removed by Python `str.strip()`: the Unicode whitespace
characters of `str.isspace`. -/
def pyIsSpace (c : Char) : Bool :=
  let n := c.toNat
  (0x09 ≤ n && n ≤ 0x0D) || n == 0x20 || (0x1C ≤ n && n ≤ 0x1F) ||
  n == 0x85 || n == 0xA0 || n == 0x1680 || (0x2000 ≤ n && n ≤ 0x200A) ||
  n == 0x2028 || n == 0x2029 || n == 0x202F || n == 0x205F || n == 0x3000

/-- Python `s.strip()`: drop leading and trailing whitespace characters. -/
def pyStrip (s : String) : String :=
  ⟨((s.data.dropWhile pyIsSpace).reverse.dropWhile pyIsSpace).reverse⟩

/-- Embeds the prompt construction of `Translator.translate`
(translator.py lines 129-133). -/
def buildPrompt (source_lang_name target_lang_name text : String) : String :=
  "Translate the following text from " ++ source_lang_name ++ " to " ++
  target_lang_name ++
  ".\nOutput ONLY the translation, without any explanations, comments, or additional text.\n\nText to translate:\n"
  ++ text

/-- A content block of an `AssistantMessage` from the agent SDK.
`_translate_async` handles `TextBlock` and `ToolUseBlock`; any other block
kind is skipped by its `if`/`elif` chain. -/
inductive ContentBlock : Type where
  | textBlock (text : String)
  | toolUseBlock (name id : String)
  | otherBlock

/-- A message received from the agent stream: `AssistantMessage` with its
content blocks, `ResultMessage` with its optional `total_cost_usd` (a float,
modelled as a rational), `UserMessage`, or any other message class. -/
inductive Message : Type where
  | assistant (content : List ContentBlock)
  | result (total_cost_usd : Option ℚ)
  | user
  | other

/-- An error raised by the external agent transport. -/
structure TransportError : Type where
  message : String
deriving DecidableEq

/-- One step of the agent stream: either a received message, or a transport
error raised by the stream at that point (terminating it). -/
inductive StreamEvent : Type where
  | msg (m : Message)
  | failure (e : TransportError)

/-- One invocation of the progress callback (translator.py lines 191-195,
206-207, 224-228). The human-readable message is carried structurally; the
numeric formatting of the cost figure is presentation only. -/
inductive ProgressUpdate : Type where
  | translating (preview : String)
  | usingTool (name : String)
  | completeWithCost (cost : ℚ)
  | complete (total_cost : Option ℚ)

/-- Does `isinstance(message, ResultMessage)` hold? -/
def isResult : Message → Bool
  | Message.result _ => true
  | _ => false

/-- Embeds the `Translator` object (translator.py lines 70-94): the resolved
model, the `debug` and `quiet` flags, and the optional progress callback.
The callback acts on a caller-chosen state type `σ`. -/
structure Translator (σ : Type) : Type where
  model : String
  debug : Bool
  quiet : Bool
  progress_callback : Option (σ → ProgressUpdate → σ)

/-- Embeds `Translator.__init__`: `self.model = self._resolve_model(model)`. -/
def Translator.init {σ : Type} (model : String) (debug quiet : Bool)
    (progress_callback : Option (σ → ProgressUpdate → σ)) : Translator σ :=
  ⟨resolve_model model, debug, quiet, progress_callback⟩

/-- The guarded callback invocation
`if self.progress_callback and not self.quiet: self.progress_callback(...)`. -/
def Translator.notifyAll {σ : Type} (tr : Translator σ) (s : σ)
    (u : ProgressUpdate) : σ :=
  match tr.progress_callback with
  | some cb => if tr.quiet then s else cb s u
  | none => s

/-- The streaming preview (translator.py lines 192-194):
`preview = accumulated_text.strip()`, truncated to 47 characters plus `"..."`
when longer than 50. -/
def previewOf (accumulated_text : String) : String :=
  let p := pyStrip accumulated_text
  if 50 < p.data.length then String.mk (p.data.take 47) ++ "..." else p

/-- Embeds the inner `for block in message.content` loop of `_translate_async`
(translator.py lines 184-213). Arguments after the block list are the loop
state: the `text_blocks` list of this turn, the cross-turn `tool_uses` list,
the cross-turn `accumulated_text`, and the callback state. Returns the final
values of these four. -/
def Translator.processBlocks {σ : Type} (tr : Translator σ) :
    List ContentBlock → List String → List String → String → σ →
    List String × List String × String × σ
  | [], text_blocks, tool_uses, accumulated_text, s =>
    (text_blocks, tool_uses, accumulated_text, s)
  | ContentBlock.textBlock t :: rest, text_blocks, tool_uses, accumulated_text, s =>
    let accumulated' := accumulated_text ++ t
    let s' := tr.notifyAll s (ProgressUpdate.translating (previewOf accumulated'))
    tr.processBlocks rest (text_blocks ++ [t]) tool_uses accumulated' s'
  | ContentBlock.toolUseBlock nm _ :: rest, text_blocks, tool_uses, accumulated_text, s =>
    let s' := tr.notifyAll s (ProgressUpdate.usingTool nm)
    tr.processBlocks rest text_blocks (tool_uses ++ [nm]) accumulated_text s'
  | ContentBlock.otherBlock :: rest, text_blocks, tool_uses, accumulated_text, s =>
    tr.processBlocks rest text_blocks tool_uses accumulated_text s

/-- Embeds the `async for message in client.receive_messages()` loop of
`_translate_async` (translator.py lines 173-240): fold over the stream events
in arrival order, breaking at the first `ResultMessage`; an error raised by the
stream propagates. Loop state: `assistant_messages`, `tool_uses`,
`accumulated_text`, and the callback state. -/
def Translator.consumeStream {σ : Type} (tr : Translator σ) :
    List StreamEvent → List String → List String → String → σ →
    Except TransportError (List String × List String × σ)
  | [], assistant_messages, tool_uses, _, s =>
    Except.ok (assistant_messages, tool_uses, s)
  | StreamEvent.failure e :: _, _, _, _, _ => Except.error e
  | StreamEvent.msg (Message.assistant content) :: rest,
      assistant_messages, tool_uses, accumulated_text, s =>
    let r := tr.processBlocks content [] tool_uses accumulated_text s
    let assistant_messages' :=
      if r.1.isEmpty then assistant_messages
      else assistant_messages ++ [String.join r.1]
    tr.consumeStream rest assistant_messages' r.2.1 r.2.2.1 r.2.2.2
  | StreamEvent.msg (Message.result total_cost_usd) :: _,
      assistant_messages, tool_uses, _, s =>
    let total_cost : Option ℚ :=
      match total_cost_usd with
      | some c => if c = 0 then none else some c
      | none => none
    let s' :=
      match total_cost with
      | some c =>
        if 0 < c then tr.notifyAll s (ProgressUpdate.completeWithCost c)
        else tr.notifyAll s (ProgressUpdate.complete total_cost)
      | none => tr.notifyAll s (ProgressUpdate.complete total_cost)
    Except.ok (assistant_messages, tool_uses, s')
  | StreamEvent.msg Message.user :: rest,
      assistant_messages, tool_uses, accumulated_text, s =>
    tr.consumeStream rest assistant_messages tool_uses accumulated_text s
  | StreamEvent.msg Message.other :: rest,
      assistant_messages, tool_uses, accumulated_text, s =>
    tr.consumeStream rest assistant_messages tool_uses accumulated_text s

/-- Embeds `Translator._translate_async` (translator.py lines 146-248): consume
the stream, then return `assistant_messages[-1].strip() if assistant_messages
else ""`. -/
def Translator.translate_async {σ : Type} (tr : Translator σ)
    (stream : List StreamEvent) (s : σ) : Except TransportError String :=
  (tr.consumeStream stream [] [] "" s).map fun r =>
    match r.1.getLast? with
    | some last => pyStrip last
    | none => ""

/-- Embeds `Translator.translate` (translator.py lines 104-144): derive the
source language via `LanguageDetector.detect` when absent, resolve both
display names, build the prompt, and run the streamed exchange. The returned
pair is (the outbound prompt, the result of the exchange). -/
def Translator.translate {σ : Type} (tr : Translator σ)
    (text target_language : String) (source_language : Option String)
    (stream : List StreamEvent) (s : σ) :
    String × Except TransportError String :=
  let source :=
    match source_language with
    | none => detect text
    | some sl => sl
  let target_lang_name := get_language_name target_language
  let source_lang_name := get_language_name source
  let prompt := buildPrompt source_lang_name target_lang_name text
  (prompt, tr.translate_async stream s)

/-- Embeds `Translator.auto_translate` (translator.py lines 250-271):
`detected_lang = detect(text)`; translate to `"en"` when the detected language
equals the native language, to the native language otherwise; pass
`detected_lang` as the source. -/
def Translator.auto_translate {σ : Type} (tr : Translator σ)
    (text native_language : String) (stream : List StreamEvent) (s : σ) :
    String × Except TransportError String :=
  let detected_lang := detect text
  let target_language :=
    if detected_lang = native_language then "en" else native_language
  tr.translate text target_language (some detected_lang) stream s

/-! Configuration store (`src/cctr/config.py`). -/

/-- The configuration dictionary: string keys to string values. -/
abbrev Dict : Type := List (String × String)

/-- The persisted configuration file: `none` when the file does not exist,
otherwise the dictionary it holds (an empty YAML document loads as `{}`, i.e.
`some []`). -/
abbrev FileSystem : Type := Option Dict

/-- Embeds `Config._load_config` (config.py lines 53-65), with the
system-derived default language (`get_system_language`) passed as `sysLang`:
read the dict from the file when it exists; otherwise create, persist and
return the default configuration. Returns (loaded dict, resulting file). -/
def load_config (sysLang : String) (fs : FileSystem) : Dict × FileSystem :=
  match fs with
  | some d => (d, some d)
  | none =>
    let default_config : Dict :=
      [("native_language", sysLang), ("default_model", "haiku")]
    (default_config, some default_config)

/-- Embeds `Config.set` (config.py lines 98-101): update the in-memory dict and
persist it immediately. Returns (new dict, new file). -/
def Config.set (cfg : Dict) (key value : String) : Dict × FileSystem :=
  let cfg' := dictSet cfg key value
  (cfg', some cfg')

/-- Embeds the `Config.native_language` getter (config.py lines 72-75):
`self._config.get("native_language", get_system_language())`. -/
def native_language (cfg : Dict) (sysLang : String) : String :=
  dictGetD cfg "native_language" sysLang

/-- Embeds the `Config.native_language` setter (config.py lines 77-81). -/
def set_native_language (cfg : Dict) (value : String) : Dict × FileSystem :=
  let cfg' := dictSet cfg "native_language" value
  (cfg', some cfg')

/-- Embeds the `Config.default_model` getter (config.py lines 83-86):
`self._config.get("default_model", "haiku")`. -/
def default_model (cfg : Dict) : String :=
  dictGetD cfg "default_model" "haiku"

/-- Embeds the `Config.default_model` setter (config.py lines 88-92). -/
def set_default_model (cfg : Dict) (value : String) : Dict × FileSystem :=
  let cfg' := dictSet cfg "default_model" value
  (cfg', some cfg')

/-! Spec-side description of the response-extraction policy (spec.md §4.3
steps 4-5), written from the spec's words, to be compared with the embedded
`Translator._translate_async`. -/

/-- The textual segment carried by a content block, when it is one. -/
def textOf : ContentBlock → Option String
  | ContentBlock.textBlock t => some t
  | _ => none

/-- Spec-side: the textual turns of a message sequence, in order — one string
per assistant turn that emitted at least one textual segment, each the
concatenation of that turn's textual segments in order. -/
def specTurns : List Message → List String
  | [] => []
  | Message.assistant content :: rest =>
    let texts := content.filterMap textOf
    if texts.isEmpty then specTurns rest else String.join texts :: specTurns rest
  | _ :: rest => specTurns rest

/-- Spec-side: the final result — events are consumed until the first terminal
result event; the result is the last textual turn with surrounding whitespace
trimmed, or the empty string when no textual turn was produced. -/
def specResult (msgs : List Message) : String :=
  match (specTurns (msgs.takeWhile fun m => !isResult m)).getLast? with
  | some last => pyStrip last
  | none => ""

/-! Helper lemmas. -/

lemma inRange_iff (c : Char) :
    (japanese_ranges.any fun r =>
        decide (r.1 ≤ c.toNat) && decide (c.toNat ≤ r.2)) = true ↔
      ((0x3040 ≤ c.toNat ∧ c.toNat ≤ 0x309F) ∨
       (0x30A0 ≤ c.toNat ∧ c.toNat ≤ 0x30FF) ∨
       (0x4E00 ≤ c.toNat ∧ c.toNat ≤ 0x9FFF)) := by
  simp [japanese_ranges]

lemma processBlocks_texts {σ : Type} (tr : Translator σ) :
    ∀ (blocks : List ContentBlock) (text_blocks tool_uses : List String)
      (accumulated_text : String) (s : σ),
      (tr.processBlocks blocks text_blocks tool_uses accumulated_text s).1 =
        text_blocks ++ blocks.filterMap textOf := by
  intro blocks
  induction blocks with
  | nil => intro text_blocks tool_uses accumulated_text s
           simp [Translator.processBlocks]
  | cons b rest ih =>
    intro text_blocks tool_uses accumulated_text s
    cases b with
    | textBlock t =>
      simp [Translator.processBlocks, textOf, ih]
    | toolUseBlock nm i =>
      simp [Translator.processBlocks, textOf, ih]
    | otherBlock =>
      simp [Translator.processBlocks, textOf, ih]

lemma consumeStream_msgs_fst {σ : Type} (tr : Translator σ) :
    ∀ (msgs : List Message) (acc tool_uses : List String)
      (accumulated_text : String) (s : σ),
      (tr.consumeStream (msgs.map StreamEvent.msg) acc tool_uses
          accumulated_text s).map (fun r => r.1) =
        Except.ok (acc ++ specTurns (msgs.takeWhile fun m => !isResult m)) := by
  intro msgs
  induction msgs with
  | nil => intro acc tool_uses accumulated_text s
           simp [Translator.consumeStream, specTurns, Except.map]
  | cons m rest ih =>
    intro acc tool_uses accumulated_text s
    cases m with
    | assistant content =>
      have hp : (fun m => !isResult m) (Message.assistant content) = true := by
        simp [isResult]
      rw [List.map_cons,
        @List.takeWhile_cons_of_pos Message (fun m => !isResult m)
          (Message.assistant content) rest hp]
      simp only [Translator.consumeStream]
      rw [processBlocks_texts]
      simp only [List.nil_append, specTurns]
      by_cases h : (content.filterMap textOf).isEmpty
      · simp [h, ih]
      · simp [h, ih, List.append_assoc]
    | result total_cost_usd =>
      have hp : ¬ ((fun m => !isResult m) (Message.result total_cost_usd) = true) := by
        simp [isResult]
      rw [List.map_cons,
        @List.takeWhile_cons_of_neg Message (fun m => !isResult m)
          (Message.result total_cost_usd) rest hp]
      simp [Translator.consumeStream, specTurns, Except.map]
    | user =>
      have hp : (fun m => !isResult m) Message.user = true := by
        simp [isResult]
      rw [List.map_cons,
        @List.takeWhile_cons_of_pos Message (fun m => !isResult m)
          Message.user rest hp]
      simp only [Translator.consumeStream]
      rw [ih]
      simp [specTurns]
    | other =>
      have hp : (fun m => !isResult m) Message.other = true := by
        simp [isResult]
      rw [List.map_cons,
        @List.takeWhile_cons_of_pos Message (fun m => !isResult m)
          Message.other rest hp]
      simp only [Translator.consumeStream]
      rw [ih]
      simp [specTurns]

lemma consumeStream_fst_congr {σ₁ σ₂ : Type} (tr₁ : Translator σ₁)
    (tr₂ : Translator σ₂) :
    ∀ (evts : List StreamEvent) (acc tu₁ tu₂ : List String) (ac₁ ac₂ : String)
      (s₁ : σ₁) (s₂ : σ₂),
      (tr₁.consumeStream evts acc tu₁ ac₁ s₁).map (fun r => r.1) =
        (tr₂.consumeStream evts acc tu₂ ac₂ s₂).map (fun r => r.1) := by
  intro evts
  induction evts with
  | nil => intro acc tu₁ tu₂ ac₁ ac₂ s₁ s₂
           simp [Translator.consumeStream, Except.map]
  | cons ev rest ih =>
    intro acc tu₁ tu₂ ac₁ ac₂ s₁ s₂
    cases ev with
    | failure e => simp [Translator.consumeStream, Except.map]
    | msg m =>
      cases m with
      | assistant content =>
        simp only [Translator.consumeStream]
        rw [processBlocks_texts, processBlocks_texts]
        simp only [List.nil_append]
        exact ih _ _ _ _ _ _ _
      | result total_cost_usd => simp [Translator.consumeStream, Except.map]
      | user => simp only [Translator.consumeStream]; exact ih _ _ _ _ _ _ _
      | other => simp only [Translator.consumeStream]; exact ih _ _ _ _ _ _ _

lemma translate_async_congr {σ₁ σ₂ : Type} (tr₁ : Translator σ₁)
    (tr₂ : Translator σ₂) (stream : List StreamEvent) (s₁ : σ₁) (s₂ : σ₂) :
    tr₁.translate_async stream s₁ = tr₂.translate_async stream s₂ := by
  unfold Translator.translate_async
  have h := consumeStream_fst_congr tr₁ tr₂ stream [] [] [] "" "" s₁ s₂
  cases hc₁ : tr₁.consumeStream stream [] [] "" s₁ with
  | error e₁ =>
    cases hc₂ : tr₂.consumeStream stream [] [] "" s₂ with
    | error e₂ =>
      rw [hc₁, hc₂] at h
      simp only [Except.map, Except.error.injEq] at h
      simp [Except.map, h]
    | ok r₂ =>
      rw [hc₁, hc₂] at h
      simp [Except.map] at h
  | ok r₁ =>
    cases hc₂ : tr₂.consumeStream stream [] [] "" s₂ with
    | error e₂ =>
      rw [hc₁, hc₂] at h
      simp [Except.map] at h
    | ok r₂ =>
      rw [hc₁, hc₂] at h
      simp only [Except.map, Except.ok.injEq] at h
      simp [Except.map, h]

lemma consumeStream_error {σ : Type} (tr : Translator σ) :
    ∀ (msgs : List Message), (∀ m ∈ msgs, isResult m = false) →
      ∀ (acc tool_uses : List String) (accumulated_text : String) (s : σ)
        (rest : List StreamEvent) (e : TransportError),
        tr.consumeStream
            (msgs.map StreamEvent.msg ++ StreamEvent.failure e :: rest)
            acc tool_uses accumulated_text s = Except.error e := by
  intro msgs
  induction msgs with
  | nil => intro _ acc tool_uses accumulated_text s rest e
           simp [Translator.consumeStream]
  | cons m tl ih =>
    intro h acc tool_uses accumulated_text s rest e
    have htl : ∀ m ∈ tl, isResult m = false := fun m hm => h m (List.mem_cons_of_mem _ hm)
    cases m with
    | assistant content =>
      simp only [List.map_cons, List.cons_append, Translator.consumeStream]
      exact ih htl _ _ _ _ _ _
    | result total_cost_usd =>
      have : isResult (Message.result total_cost_usd) = false :=
        h _ (List.mem_cons_self _ _)
      simp [isResult] at this
    | user =>
      simp only [List.map_cons, List.cons_append, Translator.consumeStream]
      exact ih htl _ _ _ _ _ _
    | other =>
      simp only [List.map_cons, List.cons_append, Translator.consumeStream]
      exact ih htl _ _ _ _ _ _

lemma dictFind_dictSet_self (d : Dict) (k v : String) :
    dictFind (dictSet d k v) k = some v := by
  induction d with
  | nil => simp [dictSet, dictFind]
  | cons kv rest ih =>
    by_cases h : kv.1 == k
    · simp [dictSet, dictFind, h]
    · simp [dictSet, dictFind, h, ih]

lemma dictFind_dictSet_ne (d : Dict) (k k' v : String) (h : k' ≠ k) :
    dictFind (dictSet d k v) k' = dictFind d k' := by
  have hkk : (k == k') = false := by
    simp only [beq_eq_false_iff_ne]
    exact fun he => h he.symm
  induction d with
  | nil => simp [dictSet, dictFind, hkk]
  | cons kv rest ih =>
    by_cases hk : kv.1 == k
    · have hk' : (kv.1 == k') = false := by
        simp only [beq_eq_false_iff_ne]
        rw [beq_iff_eq] at hk
        rw [hk]
        exact fun he => h he.symm
      simp [dictSet, dictFind, hk, hk', hkk]
    · simp [dictSet, dictFind, hk, ih]

/-! Claim theorems. -/

/-- C1: for every input text, `detect` returns `"ja"` if and only if some
character of the text has a code point in U+3040–U+309F, U+30A0–U+30FF, or
U+4E00–U+9FFF, and its only other possible result is `"en"`; it is a pure
total Lean function, so it never fails. -/
theorem detect_spec (text : String) :
    (detect text = "ja" ↔ ∃ c ∈ text.data,
        (0x3040 ≤ c.toNat ∧ c.toNat ≤ 0x309F) ∨
        (0x30A0 ≤ c.toNat ∧ c.toNat ≤ 0x30FF) ∨
        (0x4E00 ≤ c.toNat ∧ c.toNat ≤ 0x9FFF)) ∧
    (detect text = "ja" ∨ detect text = "en") := by
  by_cases h : text.data.any (fun char =>
      japanese_ranges.any fun r =>
        decide (r.1 ≤ char.toNat) && decide (char.toNat ≤ r.2)) = true
  · have hd : detect text = "ja" := by simp only [detect, h, if_true]
    refine ⟨⟨fun _ => ?_, fun _ => hd⟩, Or.inl hd⟩
    rw [List.any_eq_true] at h
    obtain ⟨c, hc, hj⟩ := h
    exact ⟨c, hc, (inRange_iff c).mp hj⟩
  · have hd : detect text = "en" := by
      simp only [detect]
      rw [if_neg h]
    refine ⟨⟨fun hja => absurd (hja.symm.trans hd) (by decide),
      fun hex => ?_⟩, Or.inr hd⟩
    obtain ⟨c, hc, hp⟩ := hex
    exact absurd (List.any_eq_true.mpr ⟨c, hc, (inRange_iff c).mpr hp⟩) h

/-- Witness for C1 at concrete inputs: a Hiragana string is detected as
Japanese, an all-ASCII string as English. -/
theorem detect_spec_witness :
    detect "こんにちは" = "ja" ∧ detect "Hello, world!" = "en" := by
  constructor
  · exact (detect_spec "こんにちは").1.mpr ⟨'こ', by decide, by decide⟩
  · rcases (detect_spec "Hello, world!").2 with h | h
    · exact absurd ((detect_spec "Hello, world!").1.mp h) (by decide)
    · exact h

/-- C2: `auto_translate` computes the source as `detect text` and targets
`"en"` when the detected language equals the native language, the native
language otherwise; in particular, when the native language is `"en"` and the
detected language is `"en"`, the requested target is `"en"` (the
translate-to-self request is not special-cased away). -/
theorem auto_translate_policy {σ : Type} (tr : Translator σ) (s : σ)
    (stream : List StreamEvent) (text native_language : String) :
    tr.auto_translate text native_language stream s =
      tr.translate text
        (if detect text = native_language then "en" else native_language)
        (some (detect text)) stream s
    ∧ (native_language = "en" → detect text = "en" →
        tr.auto_translate text native_language stream s =
          tr.translate text "en" (some (detect text)) stream s) := by
  constructor
  · rfl
  · intro hn hd
    simp [Translator.auto_translate, hn, hd]

/-- Witness for C2: with native language `"en"` and English input, the
auto-translate request targets `"en"`. -/
theorem auto_translate_policy_witness :
    (Translator.init "haiku" false false
        (none : Option (Unit → ProgressUpdate → Unit))).auto_translate
        "Hello, world!" "en" [] () =
      (Translator.init "haiku" false false
        (none : Option (Unit → ProgressUpdate → Unit))).translate
        "Hello, world!" "en" (some (detect "Hello, world!")) [] () :=
  (auto_translate_policy (Translator.init "haiku" false false none) () []
      "Hello, world!" "en").2 rfl (by decide)

/-- C3: over an error-free stream, `_translate_async` consumes messages in
arrival order until the first result message, builds one concatenated string
per textual assistant turn, and returns the last such turn trimmed — or the
empty string, without error, when no textual turn was produced. -/
theorem translate_async_extracts_last_turn {σ : Type} (tr : Translator σ)
    (s : σ) (msgs : List Message) :
    tr.translate_async (msgs.map StreamEvent.msg) s =
      Except.ok (specResult msgs) := by
  unfold Translator.translate_async specResult
  have h := consumeStream_msgs_fst tr msgs [] [] "" s
  cases hc : tr.consumeStream (msgs.map StreamEvent.msg) [] [] "" s with
  | error e =>
    rw [hc] at h
    simp [Except.map] at h
  | ok r =>
    rw [hc] at h
    simp only [Except.map, List.nil_append, Except.ok.injEq] at h
    simp only [Except.map, Except.ok.injEq]
    rw [h]

/-- C4: a transport error raised by the stream before any result message
propagates unmodified through `translate`: the outcome is exactly that error
and no translation output. -/
theorem transport_error_propagates {σ : Type} (tr : Translator σ) (s : σ)
    (text target_language : String) (source_language : Option String)
    (received : List Message) (e : TransportError) (rest : List StreamEvent)
    (h : ∀ m ∈ received, isResult m = false) :
    (tr.translate text target_language source_language
        (received.map StreamEvent.msg ++ StreamEvent.failure e :: rest) s).2 =
      Except.error e := by
  show tr.translate_async _ s = _
  unfold Translator.translate_async
  rw [consumeStream_error tr received h]
  rfl

/-- Witness for C4: a stream that fails after a user message and a partial
assistant turn yields exactly the transport error. -/
theorem transport_error_propagates_witness :
    ((Translator.init "haiku" false false
        (none : Option (Unit → ProgressUpdate → Unit))).translate
        "Hello" "ja" none
        ([Message.user,
          Message.assistant [ContentBlock.textBlock "Bon"]].map StreamEvent.msg ++
          StreamEvent.failure ⟨"connection reset"⟩ :: []) ()).2 =
      Except.error ⟨"connection reset"⟩ :=
  transport_error_propagates (Translator.init "haiku" false false none) ()
    "Hello" "ja" none
    [Message.user, Message.assistant [ContentBlock.textBlock "Bon"]]
    ⟨"connection reset"⟩ [] (by decide)

/-- C5: setting the native-language preference to `v` and reloading the
configuration store from the persisted file yields `v`, whatever the
system-derived default language is at either time. -/
theorem native_language_round_trip (cfg : Dict) (v sysLang : String) :
    native_language (load_config sysLang (set_native_language cfg v).2).1
        sysLang = v := by
  simp [set_native_language, load_config, native_language, dictGetD,
    dictFind_dictSet_self]

/-- C6: model resolution maps exactly the aliases `"haiku"`, `"sonnet"` and
`"opus"` to their fixed identifiers and every other string to itself. -/
theorem resolve_model_spec :
    resolve_model "haiku" = "claude-3-5-haiku-20241022" ∧
    resolve_model "sonnet" = "claude-3-5-sonnet-20241022" ∧
    resolve_model "opus" = "claude-opus-4-20250514" ∧
    ∀ m : String, m ≠ "haiku" → m ≠ "sonnet" → m ≠ "opus" →
      resolve_model m = m := by
  refine ⟨by decide, by decide, by decide, ?_⟩
  intro m h1 h2 h3
  have e1 : ("haiku" == m) = false := beq_eq_false_iff_ne.mpr (Ne.symm h1)
  have e2 : ("sonnet" == m) = false := beq_eq_false_iff_ne.mpr (Ne.symm h2)
  have e3 : ("opus" == m) = false := beq_eq_false_iff_ne.mpr (Ne.symm h3)
  simp [resolve_model, dictGetD, MODEL_ALIASES, dictFind, e1, e2, e3]

/-- Witness for C6: an unrecognized model name passes through unchanged. -/
theorem resolve_model_spec_witness :
    resolve_model "unknown-model-x" = "unknown-model-x" :=
  resolve_model_spec.2.2.2 "unknown-model-x" (by decide) (by decide) (by decide)

/-- C7: the progress callback is purely observational — for every stream and
every input, `translate` returns the same value whatever callback (over
whatever state) is supplied, including none, and whatever the `debug` and
`quiet` flags are. -/
theorem progress_callback_observational {σ₁ σ₂ : Type} (model : String)
    (debug₁ debug₂ quiet₁ quiet₂ : Bool)
    (cb₁ : Option (σ₁ → ProgressUpdate → σ₁))
    (cb₂ : Option (σ₂ → ProgressUpdate → σ₂)) (s₁ : σ₁) (s₂ : σ₂)
    (text target_language : String) (source_language : Option String)
    (stream : List StreamEvent) :
    (Translator.mk model debug₁ quiet₁ cb₁).translate text target_language
        source_language stream s₁ =
      (Translator.mk model debug₂ quiet₂ cb₂).translate text target_language
        source_language stream s₂ :=
  Prod.ext rfl (translate_async_congr _ _ stream s₁ s₂)

/-- C8: language-name resolution maps exactly the ten known codes to their
fixed English display names and every other code to itself. -/
theorem get_language_name_spec :
    get_language_name "en" = "English" ∧
    get_language_name "ja" = "Japanese" ∧
    get_language_name "zh" = "Chinese" ∧
    get_language_name "ko" = "Korean" ∧
    get_language_name "es" = "Spanish" ∧
    get_language_name "fr" = "French" ∧
    get_language_name "de" = "German" ∧
    get_language_name "it" = "Italian" ∧
    get_language_name "pt" = "Portuguese" ∧
    get_language_name "ru" = "Russian" ∧
    ∀ code : String, code ≠ "en" → code ≠ "ja" → code ≠ "zh" → code ≠ "ko" →
      code ≠ "es" → code ≠ "fr" → code ≠ "de" → code ≠ "it" → code ≠ "pt" →
      code ≠ "ru" → get_language_name code = code := by
  refine ⟨by decide, by decide, by decide, by decide, by decide, by decide,
    by decide, by decide, by decide, by decide, ?_⟩
  intro code h1 h2 h3 h4 h5 h6 h7 h8 h9 h10
  have e1 : ("en" == code) = false := beq_eq_false_iff_ne.mpr (Ne.symm h1)
  have e2 : ("ja" == code) = false := beq_eq_false_iff_ne.mpr (Ne.symm h2)
  have e3 : ("zh" == code) = false := beq_eq_false_iff_ne.mpr (Ne.symm h3)
  have e4 : ("ko" == code) = false := beq_eq_false_iff_ne.mpr (Ne.symm h4)
  have e5 : ("es" == code) = false := beq_eq_false_iff_ne.mpr (Ne.symm h5)
  have e6 : ("fr" == code) = false := beq_eq_false_iff_ne.mpr (Ne.symm h6)
  have e7 : ("de" == code) = false := beq_eq_false_iff_ne.mpr (Ne.symm h7)
  have e8 : ("it" == code) = false := beq_eq_false_iff_ne.mpr (Ne.symm h8)
  have e9 : ("pt" == code) = false := beq_eq_false_iff_ne.mpr (Ne.symm h9)
  have e10 : ("ru" == code) = false := beq_eq_false_iff_ne.mpr (Ne.symm h10)
  simp [get_language_name, dictGetD, LANGUAGE_NAMES, dictFind,
    e1, e2, e3, e4, e5, e6, e7, e8, e9, e10]

/-- Witness for C8: a code outside the table is its own display name. -/
theorem get_language_name_spec_witness :
    get_language_name "xx" = "xx" :=
  get_language_name_spec.2.2.2.2.2.2.2.2.2.2 "xx" (by decide) (by decide)
    (by decide) (by decide) (by decide) (by decide) (by decide) (by decide)
    (by decide) (by decide)

/-- C9: calling `translate` without a source language behaves identically to
calling it with the source language `detect text`: the same prompt is built
and the same result is returned. -/
theorem translate_auto_detects_source {σ : Type} (tr : Translator σ) (s : σ)
    (text target_language : String) (stream : List StreamEvent) :
    tr.translate text target_language none stream s =
      tr.translate text target_language (some (detect text)) stream s := rfl

/-- C10: setting one configuration key leaves every other key unchanged, both
in memory and in the state reloaded from the persisted file (which coincides
with the in-memory dict after a set). -/
theorem set_frame (cfg : Dict) (v sysLang : String) :
    default_model (set_native_language cfg v).1 = default_model cfg ∧
    native_language (set_default_model cfg v).1 sysLang =
      native_language cfg sysLang ∧
    (∀ key k : String, k ≠ key →
      dictFind (Config.set cfg key v).1 k = dictFind cfg k) ∧
    (∀ key : String,
      (load_config sysLang (Config.set cfg key v).2).1 =
        (Config.set cfg key v).1) ∧
    (load_config sysLang (set_native_language cfg v).2).1 =
      (set_native_language cfg v).1 ∧
    (load_config sysLang (set_default_model cfg v).2).1 =
      (set_default_model cfg v).1 := by
  refine ⟨?_, ?_, ?_, fun _ => rfl, rfl, rfl⟩
  · simp only [default_model, set_native_language, dictGetD]
    rw [dictFind_dictSet_ne cfg _ _ v (by decide)]
  · simp only [native_language, set_default_model, dictGetD]
    rw [dictFind_dictSet_ne cfg _ _ v (by decide)]
  · intro key k hk
    simpa [Config.set] using dictFind_dictSet_ne cfg key k v hk

/-- Witness for C10: setting the native language leaves the stored default
model intact, also after a reload. -/
theorem set_frame_witness :
    dictFind
        (Config.set [("native_language", "en"), ("default_model", "haiku")]
          "native_language" "ja").1 "default_model" = some "haiku" := by
  have h :=
    (set_frame [("native_language", "en"), ("default_model", "haiku")] "ja"
        "en").2.2.1 "native_language" "default_model" (by decide)
  rw [h]
  decide

end Cctr
